import Mathlib

/-!
Shallow embedding of `src/sagemaker_containers/_modules.py`.

The module fetches a user-supplied code artifact (an S3 tarball or a local
directory), prepares it as an installable Python package, installs it with
pip, and then either imports it in-process or runs it as a subprocess.

Modelling conventions:
* the ambient process environment `os.environ` and the contents of a
  directory are partial maps `String → Option String`;
* the ambient Python import machinery is an oracle
  `String → ImportOutcome` saying, for each module name, whether an
  `importlib.import_module` call succeeds or which exception it raises;
* exit codes of spawned subprocesses are oracle parameters (`rc : Int`);
* the external side effects of `download_and_install` (the S3
  download-and-extract, the `prepare` call, the `install` call) are recorded
  as a trace of `Action`s.
-/

namespace Modules

/-- A Python exception value.  `isException` records whether its class
derives from the builtin `Exception` (so that `except Exception` catches
it); `isImportError` records whether it derives from `ImportError` (so that
`except ImportError` catches it).  `SystemExit` and `KeyboardInterrupt`
derive only from `BaseException`, hence both flags are `false` for them. -/
structure PyExn where
  cls : String
  isException : Bool
  isImportError : Bool
  deriving DecidableEq

/-- Result of one `importlib.import_module(name)` call (together with the
`reload_module` call where the source performs one inside the same `try`):
either the module imports fine, or the first exception raised while locating
or executing it. -/
inductive ImportOutcome
  | ok
  | raise (e : PyExn)
  deriving DecidableEq

/-- The ambient process environment `os.environ`: variable name to value. -/
abbrev Env := String → Option String

/-- `os.environ[k] = v`. -/
def envset (env : Env) (k v : String) : Env :=
  fun q => if q = k then some v else env q

/-- The contents of one directory: file name to file contents. -/
abbrev FS := String → Option String

/-- `_files.write_file(path, data)`: create the file, or overwrite it when
it already exists. -/
def write_file (fs : FS) (path data : String) : FS :=
  fun q => if q = path then some data else fs q

/-! ## URL parsing (`six.moves.urllib.parse.urlparse`), as used by
`s3_download` -/

/-- Characters `urllib.parse` accepts inside a URL scheme. -/
def scheme_char (c : Char) : Bool :=
  c.isAlpha || c.isDigit || c = '+' || c = '-' || c = '.'

/-- Split a character list at its first colon: `some (before, after)` when a
colon occurs, `none` otherwise.  Embeds the `url.find(":")` step of
`urlparse`. -/
def break_colon : List Char → Option (List Char × List Char)
  | [] => none
  | c :: rest =>
    if c = ':' then some ([], rest)
    else
      match break_colon rest with
      | none => none
      | some (pre, post) => some (c :: pre, post)

/-- `urlparse(url).scheme`: the lowercased text before the first colon, when
that text is nonempty and made only of scheme characters; `""` otherwise. -/
def urlScheme (url : String) : String :=
  match break_colon url.toList with
  | some (pre, _) =>
    if pre.isEmpty || !(pre.all scheme_char) then "" else String.mk (pre.map Char.toLower)
  | none => ""

/-- The remainder of the URL once a recognized `scheme:` has been removed
(the whole URL when no scheme is recognized). -/
def after_scheme (url : String) : List Char :=
  match break_colon url.toList with
  | some (pre, post) =>
    if pre.isEmpty || !(pre.all scheme_char) then url.toList else post
  | none => url.toList

/-- `urlparse`: when the remainder begins with `//`, the netloc is the text
up to the next slash and the path is the rest; otherwise the netloc is empty
and the path is the whole remainder. -/
def netloc_path (rest : List Char) : List Char × List Char :=
  match rest with
  | '/' :: '/' :: r => (r.takeWhile (fun c => !(c = '/')), r.dropWhile (fun c => !(c = '/')))
  | r => ([], r)

/-- Observable outcome of `s3_download(url, dst)`.  `valueError` is the
`ValueError("Expecting s3 scheme ...")` the source raises on a non-s3
scheme (the error the spec's taxonomy calls `InvalidLocationError`);
`downloaded` records the bucket/key transfer performed via boto3. -/
inductive S3Result
  | valueError (scheme : String)
  | downloaded (bucket key dst : String)
  deriving DecidableEq

/-- `s3_download(url, dst)`: parse the URL; raise unless the scheme is `s3`;
otherwise download object `key` of `bucket` to `dst`
(`bucket, key = url.netloc, url.path.lstrip("/")`). -/
def s3_download (url dst : String) : S3Result :=
  let scheme := urlScheme url
  if scheme = "s3" then
    let rest := after_scheme url
    let np := netloc_path rest
    .downloaded (String.mk np.1) (String.mk (np.2.dropWhile (fun c => c = '/'))) dst
  else .valueError scheme

/-! ## Local-path resolution (the `else` branch of `download_and_install`) -/

/-- `uri.replace("file://", "")` on character lists: delete every
left-to-right, non-overlapping occurrence of `file://` (Python's
`str.replace` replaces every occurrence, not only a leading one). -/
def drop_fs : List Char → List Char
  | 'f' :: 'i' :: 'l' :: 'e' :: ':' :: '/' :: '/' :: rest => drop_fs rest
  | c :: rest => c :: drop_fs rest
  | [] => []

/-- Whether `file://` occurs anywhere in the list. -/
def has_fs : List Char → Bool
  | 'f' :: 'i' :: 'l' :: 'e' :: ':' :: '/' :: '/' :: _ => true
  | _ :: rest => has_fs rest
  | [] => false

/-- `uri.startswith("s3://")`. -/
def startsWithS3 (uri : String) : Bool :=
  ("s3://".toList).isPrefixOf uri.toList

/-- `module_path = uri.replace("file://", "")`: the local-path resolution of
a non-s3 URI in `download_and_install`. -/
def local_module_path (uri : String) : String :=
  String.mk (drop_fs uri.toList)

/-! ## `prepare` -/

/-- The `setup.py` text `prepare` generates (the `textwrap.dedent` of the
source literal, with the module name substituted for `%s`). -/
def setup_py_content (name : String) : String :=
  "\nfrom setuptools import setup\n\nsetup(packages=[\x27\x27],\n      name=\"" ++
    name ++ "\",\n      version=\x271.0.0\x27,\n      include_package_data=True)\n"

/-- The `setup.cfg` text `prepare` generates. -/
def setup_cfg_content : String :=
  "\n[wheel]\nuniversal = 1\n"

/-- The `MANIFEST.in` text `prepare` generates. -/
def manifest_in_content : String :=
  "\nrecursive-include . *\n\nrecursive-exclude . __pycache__*\nrecursive-exclude . *.pyc\nrecursive-exclude . *.pyo\n"

/-- `prepare(path, name)`: when `path` holds no `setup.py`, write a minimal
`setup.py`, a `setup.cfg` and a `MANIFEST.in` (in that order); when a
`setup.py` is already there, do nothing. -/
def prepare (fs : FS) (name : String) : FS :=
  if (fs "setup.py").isSome then fs
  else
    write_file
      (write_file (write_file fs "setup.py" (setup_py_content name))
        "setup.cfg" setup_cfg_content)
      "MANIFEST.in" manifest_in_content

/-! ## `install` and the `shlex.split` of its command string -/

/-- One step of whitespace tokenization (the accumulator holds the current
token being read, in order, plus the tokens already finished). -/
def split_step (c : Char) (acc : List Char × List (List Char)) :
    List Char × List (List Char) :=
  if c = ' ' then ([], if acc.1.isEmpty then acc.2 else acc.1 :: acc.2)
  else (c :: acc.1, acc.2)

/-- Flush the pending token of the accumulator. -/
def split_finish (acc : List Char × List (List Char)) : List (List Char) :=
  if acc.1.isEmpty then acc.2 else acc.1 :: acc.2

/-- Split a character list into maximal space-free nonempty tokens. -/
def splitWsChars (s : List Char) : List (List Char) :=
  split_finish (s.foldr split_step ([], []))

/-- `shlex.split` of the command strings built by `install`: those strings
contain no quoting or escapes, so the split is plain whitespace
tokenization. -/
def splitWs (s : String) : List String :=
  (splitWsChars s.toList).map String.mk

/-- The command string `install` builds:
`"%s -m pip install -U . " % python_executable()`, plus
`"-r requirements.txt"` when the directory holds a `requirements.txt`. -/
def install_cmd_str (exe : String) (fs : FS) : String :=
  exe ++ " -m pip install -U . " ++
    (if (fs "requirements.txt").isSome then "-r requirements.txt" else "")

/-- The argument vector `install` hands to `_check_error`:
`shlex.split` of `install_cmd_str`. -/
def install_cmd (exe : String) (fs : FS) : List String :=
  (splitWsChars (install_cmd_str exe fs).toList).map String.mk

/-! ## Process spawning: `_make_process`, `_check_error`, `run` -/

/-- `" ".join(cmd)`. -/
def joinWithSpace : List String → String
  | [] => ""
  | [s] => s
  | s :: rest => s ++ " " ++ joinWithSpace rest

/-- The two error classes `_check_error` is invoked with. -/
inductive ErrClass
  | installModuleError
  | executeUserScriptError
  deriving DecidableEq

/-- A child process as spawned by `subprocess.Popen(cmd, env=os.environ,
**kwargs)`: its argument vector, the environment it receives, and the
working directory when one was passed (`install` passes `cwd=path`). -/
structure SpawnedProcess where
  cmd : List String
  env : Env
  cwd : Option String

/-- `_make_process(cmd, **kwargs)` = `subprocess.Popen(cmd, env=os.environ,
**kwargs)`: the child receives the ambient environment as it is at spawn
time. -/
def _make_process (cmd : List String) (ambient : Env) (cwd : Option String) :
    SpawnedProcess :=
  { cmd := cmd, env := ambient, cwd := cwd }

/-- Outcome of `_check_error`: the completed process handle on a zero exit
code, or the raised error (class, exit code, and `" ".join(cmd)`). -/
inductive CheckOutcome
  | completed (p : SpawnedProcess)
  | raised (cls : ErrClass) (return_code : Int) (cmd : String)

/-- `_check_error(cmd, error_class, **kwargs)`: spawn, wait, and raise
`error_class(return_code=..., cmd=" ".join(cmd))` exactly when the exit
code `rc` is non-zero; return the process handle otherwise. -/
def _check_error (cmd : List String) (ambient : Env) (cwd : Option String)
    (cls : ErrClass) (rc : Int) : CheckOutcome :=
  let p := _make_process cmd ambient cwd
  if rc = 0 then .completed p else .raised cls rc (joinWithSpace cmd)

/-- `python_executable()`: `sys.executable`, raising `RuntimeError` when it
is empty.  The definitions below take the (assumed nonempty) interpreter
path as an explicit parameter `exe` standing for this value. -/
def python_executable (exe : String) : Except String String :=
  if exe = "" then
    .error "Failed to retrieve the real path for the Python executable binary"
  else .ok exe

/-- `install(path)`: run pip over the directory contents `fs` located at
`path` (so with `cwd=path`), raising `InstallModuleError` on a non-zero pip
exit code `rc`. -/
def install (path exe : String) (fs : FS) (ambient : Env) (rc : Int) : CheckOutcome :=
  _check_error (install_cmd exe fs) ambient (some path) .installModuleError rc

/-- Result of `run`: the child that was spawned, and — when `wait` is true —
the `_check_error` outcome (completed handle or `ExecuteUserScriptError`).
When `wait` is false the live handle is returned with no outcome. -/
structure RunResult where
  process : SpawnedProcess
  outcome : Option CheckOutcome

/-- `run(module_name, args, env_vars, wait)`: build
`cmd = [python_executable(), "-m", module_name] + args` and spawn it via
`_make_process` / `_check_error`.  `env_vars` is only logged
(`_logging.log_script_invocation`); the child receives `os.environ`
(the `ambient` parameter), not a merge of `env_vars` into it. -/
def run (ambient : Env) (exe module_name : String) (args : List String)
    (env_vars : List (String × String)) (wait : Bool) (rc : Int) : RunResult :=
  let cmd := exe :: "-m" :: module_name :: args
  if wait then
    { process := _make_process cmd ambient none,
      outcome := some (_check_error cmd ambient none .executeUserScriptError rc) }
  else
    { process := _make_process cmd ambient none, outcome := none }

/-! ## `exists`, `download_and_install` -/

/-- `exists(name)`: `True` when `importlib.import_module(name)` succeeds,
`False` when it raises an `ImportError`; any other exception propagates
(the source has one `except ImportError` clause only). -/
def exists_ (imp : String → ImportOutcome) (name : String) : Except PyExn Bool :=
  match imp name with
  | .ok => .ok true
  | .raise e => if e.isImportError then .ok false else .error e

/-- An external side effect of `download_and_install`: the S3 download plus
tar extraction, a `prepare` call, or an `install` call. -/
inductive Action
  | s3Fetch (uri dst : String)
  | prepareAt (path name : String)
  | installAt (path : String)
  deriving DecidableEq

/-- Number of S3 fetches in a trace. -/
def count_fetches (l : List Action) : Nat :=
  l.countP fun a => match a with | .s3Fetch _ _ => true | _ => false

/-- Number of `prepare` invocations in a trace. -/
def count_prepares (l : List Action) : Nat :=
  l.countP fun a => match a with | .prepareAt _ _ => true | _ => false

/-- Number of `install` invocations in a trace. -/
def count_installs (l : List Action) : Nat :=
  l.countP fun a => match a with | .installAt _ => true | _ => false

/-- `download_and_install(uri, name, cache)`:
`should_use_cache = cache and exists(name)` (short-circuit: `exists` is only
called when `cache` holds, and any non-ImportError exception it raises
propagates); when the cache is not used, fetch (for `s3://` URIs: download
to `tmpdir/tar_file` and extract into `tmpdir/module_dir`; otherwise resolve
the local path), then `prepare`, then `install`.  `tmpdir` is the fresh
temporary directory of the `_files.tmpdir()` context.  The returned trace
records the fetch/prepare/install invocations in order. -/
def download_and_install (imp : String → ImportOutcome) (tmpdir uri name : String)
    (cache : Bool) : Except PyExn (List Action) :=
  match (if cache then exists_ imp name else Except.ok false) with
  | .error e => .error e
  | .ok should_use_cache =>
    if should_use_cache then .ok []
    else if startsWithS3 uri then
      .ok [.s3Fetch uri (tmpdir ++ "/tar_file"),
           .prepareAt (tmpdir ++ "/module_dir") name,
           .installAt (tmpdir ++ "/module_dir")]
    else
      .ok [.prepareAt (local_module_path uri) name,
           .installAt (local_module_path uri)]

/-! ## `write_env_vars`, `run_module` -/

/-- `write_env_vars(env_vars)`: `os.environ[name] = value` for each item of
the dict, in iteration order. -/
def write_env_vars (ambient : Env) (env_vars : List (String × String)) : Env :=
  env_vars.foldl (fun e p => envset e p.1 p.2) ambient

/-- `run_module(uri, args, env_vars, name, cache, wait)`: copy `env_vars`,
`download_and_install`, write `env_vars` into the ambient environment, then
`run` the module under the updated ambient environment.  Returns the updated
ambient environment, the install-phase trace, and the `run` result. -/
def run_module (imp : String → ImportOutcome) (ambient : Env) (exe tmpdir uri : String)
    (args : List String) (env_vars : List (String × String)) (name : String)
    (cache wait : Bool) (rc : Int) : Except PyExn (Env × List Action × RunResult) :=
  match download_and_install imp tmpdir uri name cache with
  | .error e => .error e
  | .ok acts =>
    let amb2 := write_env_vars ambient env_vars
    .ok (amb2, acts, run amb2 exe name args env_vars wait rc)

/-! ## `import_module` -/

/-- Outcome of the `try` block of `import_module`: the module was imported
and reloaded; or an `Exception`-derived failure was re-raised as
`ImportModuleError(cause)`; or an exception outside the `Exception`
hierarchy escaped the `except Exception` clause unchanged. -/
inductive ImportModuleResult
  | imported
  | importModuleError (cause : PyExn)
  | uncaught (e : PyExn)
  deriving DecidableEq

/-- The `try / except Exception` block of `import_module` around
`importlib.import_module(name)` + `reload_module`:  a raised exception is
re-raised as `ImportModuleError(e)` exactly when its class derives from
`Exception`; otherwise it propagates as itself. -/
def import_or_wrap (outcome : ImportOutcome) : ImportModuleResult :=
  match outcome with
  | .ok => .imported
  | .raise e => if e.isException then .importModuleError e else .uncaught e

/-- `import_module(uri, name, cache)`: `download_and_install`, then import
and reload the module in-process.  `imp` is the import oracle the
`exists` check inside `download_and_install` sees; `impAfter` is the oracle
for the post-install import+reload (installation can change how an import
behaves). -/
def import_module (imp impAfter : String → ImportOutcome) (tmpdir uri name : String)
    (cache : Bool) : Except PyExn (List Action × ImportModuleResult) :=
  match download_and_install imp tmpdir uri name cache with
  | .error e => .error e
  | .ok acts => .ok (acts, import_or_wrap (impAfter name))

/-! ## Concrete oracles used by witnesses and counterexamples -/

/-- Import oracle of an environment where every module imports fine. -/
def imp_ok : String → ImportOutcome := fun _ => .ok

/-- A plain `ImportError`. -/
def import_error : PyExn := { cls := "ImportError", isException := true, isImportError := true }

/-- Import oracle of an environment where no module is installed (any
module import raises `ImportError`). -/
def imp_missing : String → ImportOutcome := fun _ => .raise import_error

/-- A `ValueError`: derives from `Exception`, not from `ImportError`. -/
def value_error : PyExn := { cls := "ValueError", isException := true, isImportError := false }

/-- A `SystemExit` (e.g. from `sys.exit()` in module top-level code):
derives from `BaseException` only, so `except Exception` does not catch
it. -/
def sys_exit : PyExn := { cls := "SystemExit", isException := false, isImportError := false }

/-- Import oracle raising `ValueError` for every module. -/
def imp_raise_value : String → ImportOutcome := fun _ => .raise value_error

/-- Import oracle raising `SystemExit` for every module. -/
def imp_raise_sysexit : String → ImportOutcome := fun _ => .raise sys_exit

/-- Empty ambient environment. -/
def env_empty : Env := fun _ => none

/-- Ambient environment holding exactly `HOME=/root`. -/
def amb_home : Env := fun q => if q = "HOME" then some "/root" else none

/-- Empty directory. -/
def fs_empty : FS := fun _ => none

/-- Directory with a caller-provided `setup.py` only. -/
def fs_setup : FS := fun q => if q = "setup.py" then some "custom setup" else none

/-- Directory holding a `setup.cfg` (and no `setup.py`). -/
def fs_cfg_old : FS := fun q => if q = "setup.cfg" then some "old" else none

/-- Directory holding a `requirements.txt` only. -/
def fs_req : FS := fun q => if q = "requirements.txt" then some "numpy" else none

/-- The (fetch, prepare, install) invocation counts of a pipeline outcome
(`none` when the pipeline raised before any invocation). -/
def action_counts : Except PyExn (List Action) → Option (Nat × Nat × Nat)
  | .error _ => none
  | .ok acts => some (count_fetches acts, count_prepares acts, count_installs acts)

/-! ## Helper lemmas -/

theorem toList_append (a b : String) : (a ++ b).toList = a.toList ++ b.toList := by
  cases a; cases b; rfl

theorem drop_fs_of_not_has (l : List Char) (h : has_fs l = false) : drop_fs l = l := by
  induction l using drop_fs.induct with
  | case1 rest ih => simp [has_fs] at h
  | case2 c rest hne ih =>
    rw [drop_fs]
    · rw [ih]
      rw [has_fs] at h
      · exact h
      · exact hne
    · exact hne
  | case3 => rfl

theorem foldr_split_step (a : List Char) (t0 : List (List Char)) :
    a.foldr split_step ([], t0) =
      ((a.foldr split_step ([], [])).1, (a.foldr split_step ([], [])).2 ++ t0) := by
  induction a with
  | nil => rfl
  | cons c rest ih =>
    simp only [List.foldr_cons, ih, split_step]
    by_cases hc : c = ' '
    · simp only [hc, if_pos rfl]
      by_cases h1 : (rest.foldr split_step ([], [])).1.isEmpty
      · simp [h1]
      · simp [h1]
    · simp [hc]

theorem splitWsChars_append (a b : List Char) :
    splitWsChars (a ++ ' ' :: b) = splitWsChars a ++ splitWsChars b := by
  unfold splitWsChars
  rw [List.foldr_append]
  have hstep : (' ' :: b).foldr split_step ([], []) =
      ([], split_finish (b.foldr split_step ([], []))) := by
    simp [split_step, split_finish]
  rw [hstep, foldr_split_step]
  unfold split_finish
  by_cases h1 : (a.foldr split_step ([], [])).1.isEmpty
  · simp [h1]
  · simp [h1]

theorem envset_self (env : Env) (k v : String) : envset env k v k = some v := by
  simp [envset]

theorem envset_other (env : Env) (k v q : String) (h : q ≠ k) : envset env k v q = env q := by
  simp [envset, h]

theorem write_env_vars_not_mem (env_vars : List (String × String)) (ambient : Env)
    (k : String) (h : k ∉ env_vars.map Prod.fst) :
    write_env_vars ambient env_vars k = ambient k := by
  induction env_vars generalizing ambient with
  | nil => rfl
  | cons p rest ih =>
    simp only [List.map_cons, List.mem_cons] at h
    push_neg at h
    simp only [write_env_vars, List.foldl_cons]
    rw [show (List.foldl (fun e q => envset e q.1 q.2) (envset ambient p.1 p.2) rest) =
      write_env_vars (envset ambient p.1 p.2) rest from rfl]
    rw [ih (envset ambient p.1 p.2) h.2, envset_other _ _ _ _ h.1]

theorem write_env_vars_mem (env_vars : List (String × String)) (ambient : Env)
    (k v : String) (hnd : (env_vars.map Prod.fst).Nodup) (h : (k, v) ∈ env_vars) :
    write_env_vars ambient env_vars k = some v := by
  induction env_vars generalizing ambient with
  | nil => cases h
  | cons p rest ih =>
    simp only [List.map_cons, List.nodup_cons] at hnd
    simp only [List.mem_cons] at h
    simp only [write_env_vars, List.foldl_cons]
    rcases h with h | h
    · cases h
      rw [show (List.foldl (fun e q => envset e q.1 q.2) (envset ambient k v) rest) =
        write_env_vars (envset ambient k v) rest from rfl]
      rw [write_env_vars_not_mem rest _ k hnd.1, envset_self]
    · exact ih (envset ambient p.1 p.2) hnd.2 h

theorem run_spawns_ambient (ambient : Env) (exe module_name : String) (args : List String)
    (env_vars : List (String × String)) (wait : Bool) (rc : Int) :
    (run ambient exe module_name args env_vars wait rc).process =
      _make_process (exe :: "-m" :: module_name :: args) ambient none := by
  cases wait <;> rfl

theorem install_cmd_eq (exe : String) (fs : FS) :
    install_cmd exe fs =
      (splitWsChars exe.toList).map String.mk ++
        (["-m", "pip", "install", "-U", "."] ++
          (if (fs "requirements.txt").isSome then ["-r", "requirements.txt"] else [])) := by
  unfold install_cmd install_cmd_str
  cases hr : (fs "requirements.txt").isSome
  · simp only [hr, if_false, Bool.false_eq_true]
    rw [toList_append, toList_append, List.append_assoc]
    rw [show ((" -m pip install -U . ").toList ++ ("" : String).toList) =
      ' ' :: ("-m pip install -U . ").toList from by decide]
    rw [splitWsChars_append, List.map_append]
    rw [show (splitWsChars ("-m pip install -U . ").toList).map String.mk =
      ["-m", "pip", "install", "-U", "."] from by decide]
    simp
  · simp only [hr, if_true]
    rw [toList_append, toList_append, List.append_assoc]
    rw [show ((" -m pip install -U . ").toList ++ ("-r requirements.txt").toList) =
      ' ' :: ("-m pip install -U . -r requirements.txt").toList from by decide]
    rw [splitWsChars_append, List.map_append]
    rw [show (splitWsChars ("-m pip install -U . -r requirements.txt").toList).map String.mk =
      ["-m", "pip", "install", "-U", ".", "-r", "requirements.txt"] from by decide]
    simp

/-! ## Claims -/

/-- C1: `download_and_install` with `cache=true` performs zero
fetch/prepare/install invocations when `exists(name)` is true; when
`exists(name)` is false, or when `cache=false` regardless of resolvability,
it performs exactly one prepare, one install, and one S3 fetch precisely for
`s3://` URIs (local URIs are resolved in place, with nothing to fetch). -/
theorem C1_download_and_install_cache (imp : String → ImportOutcome)
    (tmpdir uri name : String) :
    (exists_ imp name = .ok true →
      download_and_install imp tmpdir uri name true = .ok []) ∧
    (exists_ imp name = .ok false →
      action_counts (download_and_install imp tmpdir uri name true) =
        some (if startsWithS3 uri then 1 else 0, 1, 1)) ∧
    (action_counts (download_and_install imp tmpdir uri name false) =
      some (if startsWithS3 uri then 1 else 0, 1, 1)) := by
  refine ⟨fun h => ?_, fun h => ?_, ?_⟩
  · simp [download_and_install, h]
  · cases hs : startsWithS3 uri <;>
      simp [download_and_install, h, hs, action_counts,
        count_fetches, count_prepares, count_installs]
  · cases hs : startsWithS3 uri <;>
      simp [download_and_install, hs, action_counts,
        count_fetches, count_prepares, count_installs]

/-- C1 witness: in an environment where `m` imports, a cached call is a
no-op; where it does not import, an s3 call fetches, prepares and installs
once; with the cache off, a local call prepares and installs once. -/
theorem C1_download_and_install_cache_witness :
    download_and_install imp_ok "/t" "file:///a" "m" true = .ok [] ∧
    action_counts (download_and_install imp_missing "/t" "s3://b/k" "m" true) =
      some (if startsWithS3 "s3://b/k" then 1 else 0, 1, 1) ∧
    action_counts (download_and_install imp_ok "/t" "file:///a" "m" false) =
      some (if startsWithS3 "file:///a" then 1 else 0, 1, 1) :=
  ⟨(C1_download_and_install_cache imp_ok "/t" "file:///a" "m").1 rfl,
   (C1_download_and_install_cache imp_missing "/t" "s3://b/k" "m").2.1 rfl,
   (C1_download_and_install_cache imp_ok "/t" "file:///a" "m").2.2⟩

/-- C2: for every URL whose scheme is not `s3`, `s3_download` raises the
invalid-location `ValueError` (no download is attempted). -/
theorem C2_s3_download_scheme (url dst : String) (h : urlScheme url ≠ "s3") :
    s3_download url dst = .valueError (urlScheme url) := by
  simp [s3_download, h]

/-- C2 witness: a `file://` URL makes `s3_download` raise. -/
theorem C2_s3_download_scheme_witness :
    s3_download "file:///tmp/x" "/dst" = .valueError (urlScheme "file:///tmp/x") :=
  C2_s3_download_scheme "file:///tmp/x" "/dst" (by decide)

/-- C3 counterexample: with an empty ambient environment and the overlay
`FOO=bar`, the child spawned by `run` does not see `FOO=bar` — the overlay
is not merged into the child environment, refuting the claimed
overlay-over-ambient merge. -/
theorem C3_run_env_counterexample :
    ¬ (run env_empty "/usr/bin/python" "m" [] [("FOO", "bar")] true 0).process.env "FOO"
      = some "bar" := by
  decide

/-- C3 amended: the child spawned by `run` receives exactly the ambient
process environment at spawn time (every ambient key is preserved), and the
command `[python, -m, module_name] ++ args`; the `env_vars` overlay is only
logged and is never merged into the child environment (it reaches the child
only when previously written into the ambient environment, as `run_module`
does). -/
theorem C3_run_ambient_env (ambient : Env) (exe module_name : String)
    (args : List String) (env_vars : List (String × String)) (wait : Bool) (rc : Int) :
    (run ambient exe module_name args env_vars wait rc).process.env = ambient ∧
    (run ambient exe module_name args env_vars wait rc).process.cmd =
      exe :: "-m" :: module_name :: args := by
  rw [run_spawns_ambient]
  exact ⟨rfl, rfl⟩

/-- C4: `run_module` writes every overlay pair into the ambient environment
before the child is spawned (process-scope persistence), leaves every
ambient key outside the overlay unchanged, and the spawned child sees
exactly that updated ambient environment. -/
theorem C4_run_module_env_persisted (imp : String → ImportOutcome) (ambient : Env)
    (exe tmpdir uri : String) (args : List String) (env_vars : List (String × String))
    (name : String) (cache wait : Bool) (rc : Int) (amb2 : Env) (acts : List Action)
    (res : RunResult)
    (h : run_module imp ambient exe tmpdir uri args env_vars name cache wait rc =
      .ok (amb2, acts, res)) :
    ((env_vars.map Prod.fst).Nodup → ∀ k v, (k, v) ∈ env_vars → amb2 k = some v) ∧
    (∀ k, k ∉ env_vars.map Prod.fst → amb2 k = ambient k) ∧
    res.process.env = amb2 := by
  unfold run_module at h
  cases hd : download_and_install imp tmpdir uri name cache with
  | error e => rw [hd] at h; cases h
  | ok acts0 =>
    rw [hd] at h
    injection h with h'
    rw [Prod.mk.injEq, Prod.mk.injEq] at h'
    obtain ⟨ha, hacts, hres⟩ := h'
    subst ha
    refine ⟨fun hnd k v hm => write_env_vars_mem env_vars ambient k v hnd hm,
      fun k hk => write_env_vars_not_mem env_vars ambient k hk, ?_⟩
    rw [← hres, run_spawns_ambient]
    rfl

/-- C4 witness: starting from `HOME=/root` and overlay `FOO=bar`,
`run_module` persists `FOO=bar` in the ambient environment, keeps `HOME`
unchanged, and spawns the child with that updated environment. -/
theorem C4_run_module_env_persisted_witness :
    write_env_vars amb_home [("FOO", "bar")] "FOO" = some "bar" ∧
    write_env_vars amb_home [("FOO", "bar")] "HOME" = amb_home "HOME" ∧
    (run (write_env_vars amb_home [("FOO", "bar")]) "py" "m" [] [("FOO", "bar")] true 0).process.env =
      write_env_vars amb_home [("FOO", "bar")] :=
  have h := C4_run_module_env_persisted imp_ok amb_home "py" "/t" "file:///a" []
    [("FOO", "bar")] "m" false true 0 (write_env_vars amb_home [("FOO", "bar")])
    [.prepareAt (local_module_path "file:///a") "m",
     .installAt (local_module_path "file:///a")]
    (run (write_env_vars amb_home [("FOO", "bar")]) "py" "m" [] [("FOO", "bar")] true 0) rfl
  ⟨h.1 (by decide) "FOO" "bar" (by decide), h.2.1 "HOME" (by decide), h.2.2⟩

/-- C5 counterexample: in a directory that has a `setup.cfg` (with its own
contents) but no `setup.py`, `prepare` does not create three new files: the
pre-existing `setup.cfg` is overwritten, not newly created, so only
`setup.py` and `MANIFEST.in` are new — refuting "exactly three new files"
for a descriptor-less directory. -/
theorem C5_prepare_counterexample :
    fs_cfg_old "setup.py" = none ∧
    fs_cfg_old "setup.cfg" = some "old" ∧
    prepare fs_cfg_old "m" "setup.cfg" = some setup_cfg_content ∧
    setup_cfg_content ≠ "old" :=
  ⟨rfl, rfl, rfl, by decide⟩

/-- C5 amended: `prepare` creates no files and modifies nothing when a
`setup.py` exists; when none exists it writes exactly the three files
`setup.py`, `setup.cfg` and `MANIFEST.in` — creating those absent and
overwriting a pre-existing `setup.cfg` or `MANIFEST.in` — and no file other
than these three is created or modified in either case. -/
theorem C5_prepare_files (fs : FS) (name : String) :
    ((fs "setup.py").isSome = true → prepare fs name = fs) ∧
    (fs "setup.py" = none →
      prepare fs name "setup.py" = some (setup_py_content name) ∧
      prepare fs name "setup.cfg" = some setup_cfg_content ∧
      prepare fs name "MANIFEST.in" = some manifest_in_content) ∧
    (∀ f, f ≠ "setup.py" → f ≠ "setup.cfg" → f ≠ "MANIFEST.in" →
      prepare fs name f = fs f) := by
  refine ⟨fun h => ?_, fun h => ?_, fun f h1 h2 h3 => ?_⟩
  · simp [prepare, h]
  · refine ⟨?_, ?_, ?_⟩ <;> simp [prepare, h, write_file]
  · by_cases h : (fs "setup.py").isSome
    · simp [prepare, h]
    · simp [prepare, h, write_file, h1, h2, h3]

/-- C5 witness: a directory with its own `setup.py` is untouched; an empty
directory gets the three generated files and nothing else (`train.py` is
unaffected). -/
theorem C5_prepare_files_witness :
    prepare fs_setup "m" = fs_setup ∧
    prepare fs_empty "m" "setup.py" = some (setup_py_content "m") ∧
    prepare fs_empty "m" "setup.cfg" = some setup_cfg_content ∧
    prepare fs_empty "m" "MANIFEST.in" = some manifest_in_content ∧
    prepare fs_empty "m" "train.py" = fs_empty "train.py" :=
  ⟨(C5_prepare_files fs_setup "m").1 rfl,
   ((C5_prepare_files fs_empty "m").2.1 rfl).1,
   ((C5_prepare_files fs_empty "m").2.1 rfl).2.1,
   ((C5_prepare_files fs_empty "m").2.1 rfl).2.2,
   (C5_prepare_files fs_empty "m").2.2 "train.py" (by decide) (by decide) (by decide)⟩

/-- C6: the pip invocation built by `install` contains the token
`requirements.txt` exactly when the directory holds a `requirements.txt`
(for any interpreter path that does not itself tokenize to
`requirements.txt`). -/
theorem C6_install_requirements (exe : String) (fs : FS)
    (h : "requirements.txt" ∉ (splitWsChars exe.toList).map String.mk) :
    ("requirements.txt" ∈ install_cmd exe fs ↔ (fs "requirements.txt").isSome = true) := by
  rw [install_cmd_eq]
  have hb : "requirements.txt" ∉ (["-m", "pip", "install", "-U", "."] : List String) := by
    decide
  cases hr : (fs "requirements.txt").isSome
  · rw [if_neg (by decide), List.append_nil]
    constructor
    · intro hm
      rcases List.mem_append.mp hm with hA | hB
      · exact absurd hA h
      · exact absurd hB hb
    · intro hft
      exact absurd hft (by decide)
  · rw [if_pos rfl]
    constructor
    · intro _
      rfl
    · intro _
      exact List.mem_append.mpr (Or.inr (List.mem_append.mpr (Or.inr (by decide))))

/-- C6 witness: with interpreter `/usr/bin/python`, a directory holding a
`requirements.txt` yields a pip command mentioning it; an empty directory
yields one that does not. -/
theorem C6_install_requirements_witness :
    "requirements.txt" ∈ install_cmd "/usr/bin/python" fs_req ∧
    "requirements.txt" ∉ install_cmd "/usr/bin/python" fs_empty :=
  ⟨(C6_install_requirements "/usr/bin/python" fs_req (by decide)).mpr (by decide),
   fun hm => by
     have hc := (C6_install_requirements "/usr/bin/python" fs_empty (by decide)).mp hm
     simp [fs_empty] at hc⟩

/-- C7: `_check_error` (used by `install` with `InstallModuleError` and by
`run` with `wait=true` with `ExecuteUserScriptError`) returns the completed
process handle on exit code zero and raises the given error class carrying
exactly the exit code and the space-joined command line if and only if the
exit code is non-zero. -/
theorem C7_check_error (cmd : List String) (ambient : Env) (cwd : Option String)
    (cls : ErrClass) (rc : Int) (path exe : String) (fs : FS) (module_name : String)
    (args : List String) (env_vars : List (String × String)) :
    (rc = 0 → _check_error cmd ambient cwd cls rc = .completed (_make_process cmd ambient cwd)) ∧
    (rc ≠ 0 → _check_error cmd ambient cwd cls rc = .raised cls rc (joinWithSpace cmd)) ∧
    install path exe fs ambient rc =
      _check_error (install_cmd exe fs) ambient (some path) .installModuleError rc ∧
    (run ambient exe module_name args env_vars true rc).outcome =
      some (_check_error (exe :: "-m" :: module_name :: args) ambient none
        .executeUserScriptError rc) :=
  ⟨fun h => by simp [_check_error, h], fun h => by simp [_check_error, h], rfl, rfl⟩

/-- C7 witness: exit code 0 returns the completed handle; exit code 3 raises
`ExecuteUserScriptError` with exit code 3 and the full command line. -/
theorem C7_check_error_witness :
    _check_error ["python", "-m", "m"] env_empty none .executeUserScriptError 0 =
      .completed (_make_process ["python", "-m", "m"] env_empty none) ∧
    _check_error ["python", "-m", "m"] env_empty none .executeUserScriptError 3 =
      .raised .executeUserScriptError 3 (joinWithSpace ["python", "-m", "m"]) :=
  ⟨(C7_check_error ["python", "-m", "m"] env_empty none .executeUserScriptError 0
      "p" "python" fs_empty "m" [] []).1 rfl,
   (C7_check_error ["python", "-m", "m"] env_empty none .executeUserScriptError 3
      "p" "python" fs_empty "m" [] []).2.1 (by decide)⟩

/-- C8 counterexample: a module whose top-level code raises `SystemExit`
(which derives from `BaseException` only) escapes the `except Exception`
clause of `import_module` unchanged instead of being re-raised as
`ImportModuleError` — refuting "any exception ... never propagated as its
original type". -/
theorem C8_import_wrap_counterexample :
    import_module imp_missing imp_raise_sysexit "/t" "file:///a" "m" true =
      .ok ([.prepareAt (local_module_path "file:///a") "m",
            .installAt (local_module_path "file:///a")], .uncaught sys_exit) ∧
    ImportModuleResult.uncaught sys_exit ≠ .importModuleError sys_exit :=
  ⟨rfl, by decide⟩

/-- C8 amended: every exception raised while importing or reloading the
installed module whose class derives from `Exception` is caught and
re-raised as `ImportModuleError` wrapping it as its cause; exceptions
outside the `Exception` hierarchy (such as `SystemExit` or
`KeyboardInterrupt`) propagate unchanged. -/
theorem C8_import_module_wraps (imp impAfter : String → ImportOutcome)
    (tmpdir uri name : String) (cache : Bool) (acts : List Action) (e : PyExn)
    (hd : download_and_install imp tmpdir uri name cache = .ok acts) :
    (impAfter name = .raise e → e.isException = true →
      import_module imp impAfter tmpdir uri name cache = .ok (acts, .importModuleError e)) ∧
    (impAfter name = .raise e → e.isException = false →
      import_module imp impAfter tmpdir uri name cache = .ok (acts, .uncaught e)) ∧
    (impAfter name = .ok →
      import_module imp impAfter tmpdir uri name cache = .ok (acts, .imported)) := by
  refine ⟨fun h1 h2 => ?_, fun h1 h2 => ?_, fun h1 => ?_⟩ <;>
    simp [import_module, hd, import_or_wrap, h1]
  · simp [h2]
  · simp [h2]

/-- C8 witness: a module raising `ValueError` (an `Exception`) at import
time yields `ImportModuleError` wrapping that `ValueError`. -/
theorem C8_import_module_wraps_witness :
    import_module imp_missing imp_raise_value "/t" "file:///a" "m" true =
      .ok ([.prepareAt (local_module_path "file:///a") "m",
            .installAt (local_module_path "file:///a")], .importModuleError value_error) :=
  (C8_import_module_wraps imp_missing imp_raise_value "/t" "file:///a" "m" true
    [.prepareAt (local_module_path "file:///a") "m",
     .installAt (local_module_path "file:///a")] value_error rfl).1 rfl rfl

/-- C9 counterexample: the local path `/opt/ml/file://code` carries no
`file://` prefix, yet resolution does not return it unchanged: Python's
`str.replace` deletes the interior `file://` occurrence as well, giving
`/opt/ml/code` — refuting "strips only a local-scheme prefix and otherwise
returns the path unchanged". -/
theorem C9_local_path_counterexample :
    local_module_path "/opt/ml/file://code" = "/opt/ml/code" ∧
    local_module_path "/opt/ml/file://code" ≠ "/opt/ml/file://code" := by
  decide

/-- C9 amended: a non-s3 URI is resolved by deleting every occurrence of the
substring `file://` (so a leading `file://` prefix is stripped, and any
local path containing no such occurrence is returned unchanged, with no
copy); `download_and_install` prepares and installs in place at that
resolved path. -/
theorem C9_local_resolution (uri rest : String) (imp : String → ImportOutcome)
    (tmpdir name : String) :
    (has_fs uri.toList = false → local_module_path uri = uri) ∧
    (local_module_path ("file://" ++ rest) = local_module_path rest) ∧
    (startsWithS3 uri = false →
      download_and_install imp tmpdir uri name false =
        .ok [.prepareAt (local_module_path uri) name,
             .installAt (local_module_path uri)]) := by
  refine ⟨fun h => ?_, ?_, fun h => ?_⟩
  · cases uri with
    | mk data =>
      unfold local_module_path
      rw [show (String.mk data).toList = data from rfl] at h ⊢
      rw [drop_fs_of_not_has data h]
  · unfold local_module_path
    rw [toList_append]
    rw [show ("file://").toList = ['f', 'i', 'l', 'e', ':', '/', '/'] from rfl]
    rfl
  · simp [download_and_install, h]

/-- C9 witness: the plain local path `/opt/ml/code` resolves to itself;
`file:///x` resolves like `/x`; resolution feeds prepare and install. -/
theorem C9_local_resolution_witness :
    local_module_path "/opt/ml/code" = "/opt/ml/code" ∧
    local_module_path ("file://" ++ "/x") = local_module_path "/x" ∧
    download_and_install imp_ok "/t" "/opt/ml/code" "m" false =
      .ok [.prepareAt (local_module_path "/opt/ml/code") "m",
           .installAt (local_module_path "/opt/ml/code")] :=
  ⟨(C9_local_resolution "/opt/ml/code" "/x" imp_ok "/t" "m").1 (by decide),
   (C9_local_resolution "/opt/ml/code" "/x" imp_ok "/t" "m").2.1,
   (C9_local_resolution "/opt/ml/code" "/x" imp_ok "/t" "m").2.2 (by decide)⟩

/-- C10: `exists(name)` returns `False` exactly when the import raises an
`ImportError`; any other exception raised by the module (e.g. by its
top-level initialization code) propagates out of `exists` and hence out of
`download_and_install` with `cache=true`, instead of being treated as
"module not installed". -/
theorem C10_exists_importerror_only (imp : String → ImportOutcome)
    (name tmpdir uri : String) :
    (exists_ imp name = .ok false ↔
      ∃ e : PyExn, imp name = .raise e ∧ e.isImportError = true) ∧
    (∀ e : PyExn, imp name = .raise e → e.isImportError = false →
      exists_ imp name = .error e ∧
      download_and_install imp tmpdir uri name true = .error e) := by
  constructor
  · constructor
    · intro h
      cases hi : imp name with
      | ok => simp [exists_, hi] at h
      | raise e =>
        refine ⟨e, rfl, ?_⟩
        cases he : e.isImportError
        · simp [exists_, hi, he] at h
        · rfl
    · rintro ⟨e, he, hie⟩
      simp [exists_, he, hie]
  · intro e he hie
    refine ⟨by simp [exists_, he, hie], ?_⟩
    simp [download_and_install, exists_, he, hie]

/-- C10 witness: a module whose import raises `ValueError` makes both
`exists` and the cached `download_and_install` propagate that `ValueError`
rather than reporting "not installed". -/
theorem C10_exists_importerror_only_witness :
    exists_ imp_raise_value "m" = .error value_error ∧
    download_and_install imp_raise_value "/t" "file:///a" "m" true = .error value_error :=
  (C10_exists_importerror_only imp_raise_value "m" "/t" "file:///a").2 value_error rfl rfl

end Modules
